import Mathlib

/-!
Shallow embedding of the request-lifecycle core of the aws-lambda-container-api
repository: the Flask application in `src/app.py` (before/after request hooks,
the `/hello`, `/echo`, `/health` handlers, the 404 handler and the generic
exception handler) and the AWS Lambda adapter in `src/lambda_function.py`.

Conventions of the embedding:
* clock reads (`time.time()` via `get_current_time`) are `Option ℚ` values,
  `none` modelling a raising read, `some t` a successful read returning `t`
  seconds;
* `datetime.utcnow().isoformat() + "Z"` results are opaque `String`s (an
  `Option String` where the code guards the call with a try/except);
* JSON bodies are association lists of `String × JVal`, in the key order the
  source builds them; `jsonify` is the identity on this representation;
* Python `int(x)` is truncation toward zero, `round(x, 2)` is round-half-to-
  even at two decimals, both modelled on ℚ.
-/

namespace AppModel

/-- JSON-compatible values appearing in the response bodies of the app. -/
inductive JVal where
  | s (v : String)
  | n (v : ℚ)
  | b (v : Bool)
  | obj (fields : List (String × JVal))

/-- Association-list lookup on a JSON object body (first binding wins),
modelling Python dict access on the decoded response body. -/
def bodyGet (b : List (String × JVal)) (k : String) : Option JVal :=
  match b with
  | [] => none
  | (k', v) :: rest => if k' = k then some v else bodyGet rest k

/-- ASCII lowercasing of one character (header names are ASCII). -/
def lowerChar (c : Char) : Char :=
  if 'A' ≤ c && c ≤ 'Z' then Char.ofNat (c.toNat + 32) else c

/-- Case-insensitive key comparison, as werkzeug request headers use. -/
def keyEq (a b : String) : Bool := a.data.map lowerChar == b.data.map lowerChar

/-- Lookup in a header list, case-insensitive on the key
(models `request.headers.get`). -/
def headerGet (hs : List (String × String)) (k : String) : Option String :=
  match hs with
  | [] => none
  | (k', v) :: rest => if keyEq k' k then some v else headerGet rest k

/-- Lookup in the parsed query args, case-sensitive
(models `request.args.get`). -/
def argsGet (xs : List (String × String)) (k : String) : Option String :=
  match xs with
  | [] => none
  | (k', v) :: rest => if k' = k then some v else argsGet rest k

/-- Python `int(x)` on a rational: truncation toward zero. -/
def pyInt (q : ℚ) : ℤ := q.num.tdiv (q.den : ℤ)

/-- Floor of a rational as an integer (`Int.fdiv` is floor division). -/
def ratFloorZ (q : ℚ) : ℤ := q.num.fdiv (q.den : ℤ)

/-- Round-half-to-even to an integer, as Python `round` does. -/
def roundHalfEven (q : ℚ) : ℤ :=
  let f := ratFloorZ q
  let r := q - (f : ℚ)
  if r < 1 / 2 then f
  else if 1 / 2 < r then f + 1
  else if f % 2 = 0 then f else f + 1

/-- Python `round(x, 2)`: round to two decimal places, half to even. -/
def pyRound2 (q : ℚ) : ℚ := (roundHalfEven (q * 100) : ℚ) / 100

/-- Does the character list `pat` occur as a contiguous run at the front? -/
def leadsWith : List Char → List Char → Bool
  | [], _ => true
  | _ :: _, [] => false
  | a :: as, b :: bs => a == b && leadsWith as bs

/-- Does the character list `pat` occur contiguously anywhere in the list? -/
def hasSeq (pat : List Char) : List Char → Bool
  | [] => leadsWith pat []
  | c :: rest => leadsWith pat (c :: rest) || hasSeq pat rest

/-- Python `pat in s` substring test. -/
def strContainsB (s pat : String) : Bool := hasSeq pat.data s.data

/-!  The before-request hook (`before_request`, src/app.py lines 77-94). -/

/-- The value stored in `g.start_time`: the clock read, or `0` when the read
raises (src/app.py lines 80-83). -/
def startTimeOf (clockStart : Option ℚ) : ℚ := clockStart.getD 0

/-- The generated fallback id `f"req-{int(get_current_time() * 1000)}"`
(src/app.py line 86). -/
def genRequestId (t : ℚ) : String := "req-" ++ toString (pyInt (t * 1000))

/-- The value stored in `g.request_id` (src/app.py lines 85-88).  The
fallback f-string is evaluated before `headers.get`, so a raising clock read
yields `"req-error"` even when the header is present. -/
def requestIdOf (headers : List (String × String)) (clockRid : Option ℚ) :
    String :=
  match clockRid with
  | none => "req-error"
  | some t => (headerGet headers "X-Request-ID").getD (genRequestId t)

/-- The elapsed-milliseconds value computed in `after_request`
(src/app.py lines 100-103): `round((get_current_time() - g.start_time) * 1000,
2)`, or `0` when the clock read at the end raises. -/
def durationMs (clockStart clockEnd : Option ℚ) : ℚ :=
  match clockEnd with
  | none => 0
  | some tEnd => pyRound2 ((tEnd - startTimeOf clockStart) * 1000)

/-!  The three route handlers (src/app.py). -/

/-- Body of the `/hello` 200 response (src/app.py lines 147-158). -/
def hello (ts rid : String) : Nat × List (String × JVal) :=
  (200,
    [("message", JVal.s "Hello World"), ("timestamp", JVal.s ts),
     ("version", JVal.s "1.0.0"), ("request_id", JVal.s rid)])

/-- Body of the `/echo` 400 response (src/app.py lines 199-209). -/
def echoErrorBody (ts rid : String) : List (String × JVal) :=
  [("error", JVal.s "Parameter 'msg' is required"), ("status_code", JVal.n 400),
   ("timestamp", JVal.s ts), ("request_id", JVal.s rid)]

/-- The `/echo` handler (src/app.py lines 193-222): `request.args.get("msg")`
followed by Python truthiness `if not msg` (absent or empty string). -/
def echo (args : List (String × String)) (ts rid : String) :
    Nat × List (String × JVal) :=
  match argsGet args "msg" with
  | none => (400, echoErrorBody ts rid)
  | some m =>
    if m = "" then (400, echoErrorBody ts rid)
    else
      (200,
        [("message", JVal.s m), ("echo", JVal.b true), ("timestamp", JVal.s ts),
         ("request_id", JVal.s rid)])

/-- Ambient state read by the `/health` handler (src/app.py lines 250-324). -/
structure HealthEnv where
  /-- The `get_current_time()` read inside health; `none` = the read raises. -/
  clock : Option ℚ
  /-- Value of `app.start_time` when set (the `__main__` entry point sets it;
  src/app.py line 383); `none` when the attribute is absent. -/
  appStartTime : Option ℚ
  /-- Result of `os.getenv("ENVIRONMENT")`. -/
  environmentVar : Option String
  /-- Result of `datetime.utcnow().isoformat() + "Z"`; `none` = the call raises. -/
  utcnow : Option String
  /-- Any other exception while building the healthy payload (for example a
  raising psutil call), caught by the outer `except` (src/app.py line 307). -/
  buildFault : Bool
  /-- psutil readings `(memory_usage_mb, cpu_percent, open_files)`;
  `none` = the `ImportError` branch (src/app.py lines 301-303). -/
  metrics : Option (ℚ × ℚ × Nat)

/-- Body of the `/health` 503 responses (src/app.py lines 270-277, 314-322). -/
def unhealthyBody (ts rid : String) : List (String × JVal) :=
  [("status", JVal.s "unhealthy"), ("error", JVal.s "Health check failed"),
   ("timestamp", JVal.s ts), ("request_id", JVal.s rid)]

/-- The `metrics` field of the healthy payload (src/app.py lines 292-303). -/
def healthMetricsField (m : Option (ℚ × ℚ × Nat)) : String × JVal :=
  match m with
  | some (mem, cpu, files) =>
    ("metrics",
      JVal.obj
        [("memory_usage_mb", JVal.n mem), ("cpu_percent", JVal.n cpu),
         ("open_files", JVal.n files)])
  | none => ("metrics", JVal.obj [("note", JVal.s "System metrics unavailable")])

/-- The `/health` handler (src/app.py lines 250-324).  `gRid` is
`g.request_id` when set (`getattr(g, "request_id", "unknown")`).  A raising
clock read takes the inner 503 branch; a raising `utcnow` anywhere makes the
outer `except` produce the 503 body with timestamp `"unknown"`; `buildFault`
covers any other exception while assembling the healthy payload. -/
def health (gRid : Option String) (e : HealthEnv) :
    Nat × List (String × JVal) :=
  let rid := gRid.getD "unknown"
  match e.clock with
  | none => (503, unhealthyBody (e.utcnow.getD "unknown") rid)
  | some t =>
    let uptime : ℚ :=
      match e.appStartTime with
      | some s => t - s
      | none => 0
    match e.utcnow with
    | none => (503, unhealthyBody "unknown" rid)
    | some ts =>
      if e.buildFault then (503, unhealthyBody ts rid)
      else
        (200,
          [("status", JVal.s "healthy"), ("timestamp", JVal.s ts),
           ("version", JVal.s "1.0.0"),
           ("environment", JVal.s (e.environmentVar.getD "development")),
           ("request_id", JVal.s rid), ("uptime_seconds", JVal.n uptime),
           ("checks",
             JVal.obj
               [("application", JVal.s "ok"), ("memory", JVal.s "ok"),
                ("dependencies", JVal.s "ok")])] ++
          [healthMetricsField e.metrics])

/-- The 404 handler body (src/app.py lines 327-342). -/
def notFound (ts rid : String) : Nat × List (String × JVal) :=
  (404,
    [("error", JVal.s "Endpoint not found"), ("status_code", JVal.n 404),
     ("timestamp", JVal.s ts), ("request_id", JVal.s rid)])

/-- The generic exception handler `handle_exception` (src/app.py lines
345-378) for a non-HTTP exception with message `emsg` on path `path`.  (The
`HTTPException` branch re-raises instead of returning, so an `HTTPException`
routed here — a `MethodNotAllowed`, since 404 has its own handler — never
becomes a response; `dispatch` models that as `Except.error`.) -/
def handleException (emsg : String) (path : String) :
    Nat × List (String × JVal) :=
  if strContainsB emsg "Time error" && path == "/health" then
    (503,
      [("status", JVal.s "unhealthy"), ("error", JVal.s "Health check failed"),
       ("timestamp", JVal.s "unknown"), ("request_id", JVal.s "unknown")])
  else
    (500,
      [("error", JVal.s "Internal server error"), ("status_code", JVal.n 500),
       ("timestamp", JVal.s "unknown"), ("request_id", JVal.s "unknown")])

/-!  The HTTP entry point: Flask routing plus the before/after hooks. -/

/-- A parsed inbound HTTP request as the Flask layer sees it. -/
structure HttpRequest where
  method : String
  path : String
  /-- The decoded query parameters (`request.args`), first binding wins. -/
  args : List (String × String)
  headers : List (String × String)

/-- Ambient per-request state of the Flask pipeline. -/
structure ReqEnv where
  /-- Clock read for `g.start_time` (src/app.py line 81). -/
  clockStart : Option ℚ
  /-- Clock read inside the generated-id f-string (src/app.py line 86). -/
  clockRid : Option ℚ
  /-- Clock read in `after_request` (src/app.py line 101). -/
  clockEnd : Option ℚ
  /-- The `datetime.utcnow().isoformat() + "Z"` string used by the handler
  bodies of this request. -/
  utcnowStr : String
  /-- The message of an exception escaping the matched view function, if any;
  such an exception reaches `handle_exception` (src/app.py line 345). -/
  fault : Option String
  /-- Ambient state of the `/health` handler. -/
  healthEnv : HealthEnv

/-- The paths present in the route table
{(GET,/hello), (GET,/echo), (GET,/health)}. -/
def knownPath (p : String) : Bool :=
  p == "/hello" || p == "/echo" || p == "/health"

/-- The final response of the Flask pipeline, with the two monitoring headers
attached by `after_request`.  The body is the decoded JSON object: every
response this application renders comes from `jsonify`. -/
structure ResponseEnvelope where
  status : Nat
  xRequestId : String
  xResponseTime : ℚ
  body : List (String × JVal)

/-- Flask routing around the view functions.  An unknown path takes the
registered 404 handler; a matched GET runs the view (or, when a non-HTTP
exception escapes the view, the registered generic handler
`handle_exception`); a known path with a non-GET method raises
`MethodNotAllowed`, and since no 405-specific handler is registered, Flask's
by-MRO lookup routes it to `handle_exception`, whose `HTTPException` branch
re-raises it (src/app.py lines 363-365) — so no response is rendered and the
exception propagates, modelled as `Except.error`.  (It escapes the WSGI app
under testing/debug, or degrades to the surrounding server's generic 500 in
production; either way the application itself never produces a 405
response.) -/
def dispatch (req : HttpRequest) (ts rid : String) (henv : HealthEnv)
    (fault : Option String) : Except String (Nat × List (String × JVal)) :=
  if knownPath req.path then
    if req.method == "GET" then
      match fault with
      | some emsg => Except.ok (handleException emsg req.path)
      | none =>
        if req.path == "/hello" then Except.ok (hello ts rid)
        else if req.path == "/echo" then Except.ok (echo req.args ts rid)
        else Except.ok (health (some rid) henv)
    else Except.error "405 Method Not Allowed"
  else Except.ok (notFound ts rid)

/-- One full pass of the HTTP entry point: `before_request` computes
`g.start_time` and `g.request_id`; the route dispatch produces a status and
body, or lets an exception escape (in which case `finalize_request` never
runs and no headers are attached); `after_request` attaches the
`X-Request-ID` and `X-Response-Time` headers to a rendered response. -/
def handleRequest (env : ReqEnv) (req : HttpRequest) :
    Except String ResponseEnvelope :=
  match dispatch req env.utcnowStr (requestIdOf req.headers env.clockRid)
      env.healthEnv env.fault with
  | Except.error e => Except.error e
  | Except.ok r =>
    Except.ok
      { status := r.1, xRequestId := requestIdOf req.headers env.clockRid,
        xResponseTime := durationMs env.clockStart env.clockEnd,
        body := r.2 }

/-!  URL and query-string parsing as the werkzeug test client performs it
(`client.get(url)` in src/lambda_function.py). -/

/-- Split a character list at the first occurrence of `c`: the part before
it, and (when found) the part after it. -/
def splitFirst (c : Char) : List Char → List Char × Option (List Char)
  | [] => ([], none)
  | x :: xs =>
    if x = c then ([], some xs)
    else
      let r := splitFirst c xs
      (x :: r.1, r.2)

/-- Split a character list at every occurrence of `c`. -/
def splitOnChar (c : Char) : List Char → List (List Char)
  | [] => [[]]
  | x :: xs =>
    match splitOnChar c xs with
    | [] => [[]]
    | h :: t => if x = c then [] :: h :: t else (x :: h) :: t

/-- Value of a hexadecimal digit character, if it is one. -/
def hexVal (c : Char) : Option Nat :=
  if c.isDigit then some (c.toNat - 48)
  else if 'a' ≤ c && c ≤ 'f' then some (c.toNat - 87)
  else if 'A' ≤ c && c ≤ 'F' then some (c.toNat - 55)
  else none

/-- URL percent-plus decoding of a query component (`unquote_plus`):
`%XX` becomes the coded character, `+` becomes a space, a malformed escape is
kept verbatim. -/
def unquotePlus : List Char → List Char
  | [] => []
  | '+' :: rest => ' ' :: unquotePlus rest
  | '%' :: a :: b :: rest2 =>
    (match hexVal a, hexVal b with
     | some x, some y => Char.ofNat (16 * x + y) :: unquotePlus rest2
     | _, _ => '%' :: unquotePlus (a :: b :: rest2))
  | c :: rest => c :: unquotePlus rest

/-- Parse a raw query string into decoded key/value pairs: fields are
separated by `&`, each field is cut at its first `=` (a field without `=`
gets an empty value), keys and values are percent-plus decoded, empty fields
are dropped. -/
def parseQuery (qs : List Char) : List (String × String) :=
  (splitOnChar '&' qs).filterMap fun f =>
    if f = [] then none
    else
      let r := splitFirst '=' f
      some (String.mk (unquotePlus r.1), String.mk (unquotePlus (r.2.getD [])))

/-- Parse a request URL as the test client does: drop a `#` fragment, cut at
the first `?` into path and query string, and decode the query string. -/
def parseUrl (url : String) : String × List (String × String) :=
  let noFrag := (splitFirst '#' url.data).1
  let r := splitFirst '?' noFrag
  (String.mk r.1, match r.2 with
    | none => []
    | some q => parseQuery q)

/-- A `client.get url headers` call against the Flask app.  When the app
propagates an exception instead of rendering a response, the test client
re-raises it to its caller (`Except.error`). -/
def clientGet (env : ReqEnv) (url : String)
    (headers : List (String × String)) : Except String ResponseEnvelope :=
  let p := parseUrl url
  handleRequest env
    { method := "GET", path := p.1, args := p.2, headers := headers }

/-!  The AWS Lambda adapter (src/lambda_function.py). -/

/-- The nested `requestContext.http` shape of an HTTP API (v2) event. -/
structure HttpInner where
  method : Option String

/-- The `requestContext` member of an event. -/
structure ReqCtxEv where
  http : Option HttpInner

/-- An API Gateway invocation event; `none` models an absent key. -/
structure LambdaEvent where
  httpMethod : Option String
  path : Option String
  rawPath : Option String
  queryStringParameters : Option (List (String × String))
  requestContext : Option ReqCtxEv

/-- The Lambda context object; `awsRequestId = none` models a context object
that lacks the `aws_request_id` attribute. -/
structure LambdaCtx where
  awsRequestId : Option String

/-- Method extraction (src/lambda_function.py line 63): the flat
`httpMethod` key wins, then the nested HTTP API shape, defaulting to GET. -/
def eventMethod (ev : LambdaEvent) : String :=
  match ev.httpMethod with
  | some m => m
  | none => ((ev.requestContext.bind (·.http)).bind (·.method)).getD "GET"

/-- Path extraction (src/lambda_function.py line 64): `path`, then
`rawPath`, defaulting to `/`. -/
def eventPath (ev : LambdaEvent) : String :=
  ev.path.getD (ev.rawPath.getD "/")

/-- Query-parameter extraction (src/lambda_function.py line 65):
`event.get('queryStringParameters') or {}`. -/
def eventQueryParams (ev : LambdaEvent) : List (String × String) :=
  ev.queryStringParameters.getD []

/-- The rebuilt query string
`'&'.join([f"{k}={v}" for k, v in query_params.items()])`
(src/lambda_function.py line 90): plain concatenation, no URL-encoding. -/
def buildQueryString : List (String × String) → String
  | [] => ""
  | [kv] => kv.1 ++ "=" ++ kv.2
  | kv :: rest => kv.1 ++ "=" ++ kv.2 ++ "&" ++ buildQueryString rest

/-- The URL the adapter requests for `/echo`
(src/lambda_function.py line 91). -/
def echoClientUrl (qp : List (String × String)) : String :=
  let qs := buildQueryString qp
  if qs = "" then "/echo" else "/echo?" ++ qs

/-- Ambient state of one Lambda invocation. -/
structure LambdaEnv where
  /-- Clock read `time.time()` at handler entry (src/lambda_function.py line 58). -/
  nowMs : ℚ
  /-- Clock read `time.time()` at response build (src/lambda_function.py line 100). -/
  endMs : ℚ
  /-- Timestamp `datetime.utcnow().isoformat() + 'Z'` in the error body. -/
  utcnowStr : String
  /-- The message of an exception raised inside the `try` block, if any
  (for example `app.test_client` itself raising); caught at line 129. -/
  innerFault : Option String
  /-- Ambient state for the inner Flask test-client request. -/
  flask : ReqEnv

/-- The adapter's response envelope (API Gateway format).  The CORS headers
are constants; the body is kept in decoded form. -/
structure ApiResponse where
  statusCode : Nat
  xRequestId : String
  xResponseTime : ℚ
  body : List (String × JVal)

/-- The error body built by the adapter's `except` branch
(src/lambda_function.py lines 152-157). -/
def lambdaErrorBody (rid ts : String) : List (String × JVal) :=
  [("error", JVal.s "Internal server error"), ("status_code", JVal.n 500),
   ("request_id", JVal.s rid), ("timestamp", JVal.s ts)]

/-- Conversion of the inner Flask call's outcome into the API Gateway
response.  A rendered response is copied (src/lambda_function.py lines
103-114); an exception propagating out of the test client is caught by the
adapter's `except` branch and converted to the 500 error body (lines
129-158). -/
def flaskToApi (rid : String) (dur : ℚ) (ts : String)
    (r : Except String ResponseEnvelope) : ApiResponse :=
  match r with
  | Except.error _ =>
    { statusCode := 500, xRequestId := rid, xResponseTime := dur,
      body := lambdaErrorBody rid ts }
  | Except.ok resp =>
    { statusCode := resp.status, xRequestId := rid, xResponseTime := dur,
      body := resp.body }

/-- The `lambda_handler` function (src/lambda_function.py lines 46-158).
The request-id computation on line 59 sits before the `try` block: a context
object lacking `aws_request_id` raises there and the exception escapes the
handler, modelled as `Except.error`.  With no context the id is
`f"lambda-{int(time.time() * 1000)}"`.  Inside the `try`, any fault —
whether raised before the client call (`innerFault`) or propagated out of
the Flask app through the test client — is caught and converted to a 500
response; otherwise the event's method, path and query parameters are
extracted and replayed against the Flask app through a test client. -/
def lambdaHandler (ev : LambdaEvent) (ctx : Option LambdaCtx)
    (env : LambdaEnv) : Except String ApiResponse :=
  let rid? : Except String String :=
    match ctx with
    | some c =>
      match c.awsRequestId with
      | some r => Except.ok r
      | none => Except.error "AttributeError: aws_request_id"
    | none => Except.ok ("lambda-" ++ toString (pyInt (env.nowMs * 1000)))
  match rid? with
  | Except.error e => Except.error e
  | Except.ok rid =>
    match env.innerFault with
    | some _ =>
      Except.ok
        { statusCode := 500, xRequestId := rid,
          xResponseTime := pyRound2 ((env.endMs - env.nowMs) * 1000),
          body := lambdaErrorBody rid env.utcnowStr }
    | none =>
      let m := eventMethod ev
      let p := eventPath ev
      let qp := eventQueryParams ev
      let headers := [("X-Request-ID", rid)]
      let resp : Except String ResponseEnvelope :=
        if p = "/hello" && m = "GET" then clientGet env.flask "/hello" headers
        else if p = "/echo" && m = "GET" then
          clientGet env.flask (echoClientUrl qp) headers
        else if p = "/health" && m = "GET" then
          clientGet env.flask "/health" headers
        else clientGet env.flask p headers
      Except.ok
        (flaskToApi rid (pyRound2 ((env.endMs - env.nowMs) * 1000))
          env.utcnowStr resp)

/-!  Projections used to state properties of responses. -/

/-- Status of a Flask pipeline outcome that rendered a response. -/
def okStatus (r : Except String ResponseEnvelope) : Option Nat :=
  match r with
  | Except.ok a => some a.status
  | Except.error _ => none

/-- X-Request-ID header of a Flask pipeline outcome that rendered a
response. -/
def okXRequestId (r : Except String ResponseEnvelope) : Option String :=
  match r with
  | Except.ok a => some a.xRequestId
  | Except.error _ => none

/-- X-Response-Time value of a Flask pipeline outcome that rendered a
response. -/
def okXResponseTime (r : Except String ResponseEnvelope) : Option ℚ :=
  match r with
  | Except.ok a => some a.xResponseTime
  | Except.error _ => none

/-- Body of a Flask pipeline outcome that rendered a response. -/
def okBody (r : Except String ResponseEnvelope) :
    Option (List (String × JVal)) :=
  match r with
  | Except.ok a => some a.body
  | Except.error _ => none

/-- Body-field lookup in a Flask pipeline outcome that rendered a
response. -/
def okBodyGet (k : String) (r : Except String ResponseEnvelope) :
    Option JVal :=
  match r with
  | Except.ok a => bodyGet a.body k
  | Except.error _ => none

/-- Status of an adapter result that returned normally. -/
def exceptStatus (r : Except String ApiResponse) : Option Nat :=
  match r with
  | Except.ok a => some a.statusCode
  | Except.error _ => none

/-- Body-field lookup in an adapter result that returned normally. -/
def exceptBodyGet (k : String) (r : Except String ApiResponse) : Option JVal :=
  match r with
  | Except.ok a => bodyGet a.body k
  | Except.error _ => none

/-!  Concrete instantiations used by counterexamples and witnesses. -/

/-- A healthy ambient state for `/health`. -/
def baseHealthEnv : HealthEnv :=
  { clock := some 10, appStartTime := some 2, environmentVar := none,
    utcnow := some "2024-01-01T00:00:00Z", buildFault := false,
    metrics := none }

/-- A fault-free ambient request state with working clocks. -/
def baseFlaskEnv : ReqEnv :=
  { clockStart := some 10, clockRid := some 10, clockEnd := some 11,
    utcnowStr := "2024-01-01T00:00:00Z", fault := none,
    healthEnv := baseHealthEnv }

/-- The same ambient state with an exception escaping the view function. -/
def faultedFlaskEnv : ReqEnv := { baseFlaskEnv with fault := some "boom" }

/-- A GET /hello request carrying a caller-supplied correlation id. -/
def helloReqCustom : HttpRequest :=
  { method := "GET", path := "/hello", args := [],
    headers := [("X-Request-ID", "custom-1")] }

/-- A GET /hello request with no headers. -/
def helloReqBare : HttpRequest :=
  { method := "GET", path := "/hello", args := [], headers := [] }

/-- A POST /hello request with no headers. -/
def postHelloReq : HttpRequest :=
  { method := "POST", path := "/hello", args := [], headers := [] }

/-- Ambient state whose id-generation clock reads 1.0 s. -/
def flaskEnvT1 : ReqEnv := { baseFlaskEnv with clockRid := some 1 }

/-- Ambient state whose id-generation clock reads 1.0005 s: a later instant
inside the same millisecond as `flaskEnvT1`. -/
def flaskEnvT2 : ReqEnv := { baseFlaskEnv with clockRid := some (mkRat 2001 2000) }

/-- A flat GET /hello invocation event. -/
def helloEvent : LambdaEvent :=
  { httpMethod := some "GET", path := some "/hello", rawPath := none,
    queryStringParameters := none, requestContext := none }

/-- A POST /hello invocation event. -/
def postHelloEvent : LambdaEvent :=
  { httpMethod := some "POST", path := some "/hello", rawPath := none,
    queryStringParameters := none, requestContext := none }

/-- The GET /echo?msg=lambda_test invocation event of the spec's concrete
adapter scenario. -/
def echoEvent : LambdaEvent :=
  { httpMethod := some "GET", path := some "/echo", rawPath := none,
    queryStringParameters := some [("msg", "lambda_test")],
    requestContext := none }

/-- A GET /echo invocation event whose msg value contains a reserved
character. -/
def echoAmpEvent : LambdaEvent :=
  { httpMethod := some "GET", path := some "/echo", rawPath := none,
    queryStringParameters := some [("msg", "a&b")],
    requestContext := none }

/-- A context carrying an invocation id. -/
def ctxOk : LambdaCtx := { awsRequestId := some "test-request-id-123" }

/-- A context object lacking the `aws_request_id` attribute. -/
def ctxNoAttr : LambdaCtx := { awsRequestId := none }

/-- Fault-free Lambda ambient state at `time.time() = 1`. -/
def lambdaEnvOk : LambdaEnv :=
  { nowMs := 1, endMs := 2, utcnowStr := "2024-01-01T00:00:00Z",
    innerFault := none, flask := baseFlaskEnv }

/-- Lambda ambient state in which the `try` block raises. -/
def lambdaEnvFault : LambdaEnv := { lambdaEnvOk with innerFault := some "boom" }

/-- Ambient request state whose clock read at begin raises while the read at
the end succeeds. -/
def beginFailEnv : ReqEnv :=
  { baseFlaskEnv with clockStart := none, clockEnd := some 1 }

/-- A GET /echo invocation event with an arbitrary msg value. -/
def echoEventFor (m : String) : LambdaEvent :=
  { httpMethod := some "GET", path := some "/echo", rawPath := none,
    queryStringParameters := some [("msg", m)], requestContext := none }

/-!  Arithmetic helper lemmas about the Python-rounding model. -/

theorem ratFloorZ_nonneg {q : ℚ} (h : 0 ≤ q) : 0 ≤ ratFloorZ q :=
  Int.fdiv_nonneg (Rat.num_nonneg.mpr h) (Int.natCast_nonneg _)

theorem roundHalfEven_nonneg {q : ℚ} (h : 0 ≤ q) : 0 ≤ roundHalfEven q := by
  have hf := ratFloorZ_nonneg h
  unfold roundHalfEven
  dsimp only
  split_ifs <;> omega

theorem pyRound2_nonneg {q : ℚ} (h : 0 ≤ q) : 0 ≤ pyRound2 q := by
  unfold pyRound2
  have h1 : (0 : ℚ) ≤ q * 100 := by positivity
  have h2 := roundHalfEven_nonneg h1
  have h3 : (0 : ℚ) ≤ (roundHalfEven (q * 100) : ℚ) := by exact_mod_cast h2
  positivity

theorem ratFloorZ_intCast (n : ℤ) : ratFloorZ (n : ℚ) = n := by
  unfold ratFloorZ
  rw [Rat.num_intCast, Rat.den_intCast]
  simp [Int.fdiv_one]

theorem roundHalfEven_intCast (n : ℤ) : roundHalfEven (n : ℚ) = n := by
  unfold roundHalfEven
  rw [ratFloorZ_intCast]
  have : (n : ℚ) - (n : ℚ) < 1 / 2 := by norm_num
  simp [this]

theorem pyRound2_intCast (n : ℤ) : pyRound2 (n : ℚ) = (n : ℚ) := by
  unfold pyRound2
  have h : (n : ℚ) * 100 = ((n * 100 : ℤ) : ℚ) := by push_cast; ring
  rw [h, roundHalfEven_intCast]
  push_cast
  ring

/-!  Helper lemmas about the URL/query-string parsing functions. -/

theorem stringMk_data (s : String) : String.mk s.data = s := rfl

theorem splitFirst_not_mem {c : Char} {l : List Char} (h : c ∉ l) :
    splitFirst c l = (l, none) := by
  induction l with
  | nil => rfl
  | cons x xs ih =>
    simp only [List.mem_cons, not_or] at h
    have hx : ¬(x = c) := fun he => h.1 he.symm
    simp [splitFirst, hx, ih h.2]

theorem splitFirst_append {c : Char} (p s : List Char) (h : c ∉ p) :
    splitFirst c (p ++ c :: s) = (p, some s) := by
  induction p with
  | nil => simp [splitFirst]
  | cons x xs ih =>
    simp only [List.mem_cons, not_or] at h
    have hx : ¬(x = c) := fun he => h.1 he.symm
    simp [splitFirst, hx, ih h.2]

theorem splitOnChar_not_mem {c : Char} {l : List Char} (h : c ∉ l) :
    splitOnChar c l = [l] := by
  induction l with
  | nil => rfl
  | cons x xs ih =>
    simp only [List.mem_cons, not_or] at h
    have hx : ¬(x = c) := fun he => h.1 he.symm
    rw [splitOnChar, ih h.2]
    simp [hx]

theorem unquotePlus_not_mem_id {l : List Char} (h1 : '%' ∉ l) (h2 : '+' ∉ l) :
    unquotePlus l = l := by
  induction l using unquotePlus.induct with
  | case1 => rfl
  | case2 rest ih => simp at h2
  | case3 a b rest2 x y hx hy ih => simp at h1
  | case4 a b rest2 hne ih => simp at h1
  | case5 c rest hc1 hc2 ih =>
    simp only [List.mem_cons, not_or] at h1 h2
    rw [unquotePlus.eq_def]
    split <;> simp_all

theorem notMemAppend {a : Char} {l1 l2 : List Char} (h1 : a ∉ l1)
    (h2 : a ∉ l2) : a ∉ l1 ++ l2 :=
  fun h => (List.mem_append.mp h).elim h1 h2

theorem notMemCons {a b : Char} {l : List Char} (h1 : a ≠ b) (h2 : a ∉ l) :
    a ∉ b :: l := by
  intro h
  rcases List.mem_cons.mp h with he | hm
  · exact h1 he
  · exact h2 hm

theorem parseQuery_msg (m : String) (hAmp : '&' ∉ m.data)
    (hPct : '%' ∉ m.data) (hPlus : '+' ∉ m.data) :
    parseQuery (['m', 's', 'g', '='] ++ m.data) = [("msg", m)] := by
  have hAll : '&' ∉ (['m', 's', 'g', '='] ++ m.data) :=
    notMemAppend (by decide) hAmp
  have hne : ¬(['m', 's', 'g', '='] ++ m.data = []) := by simp
  have hsf : splitFirst '=' (['m', 's', 'g', '='] ++ m.data) =
      (['m', 's', 'g'], some m.data) :=
    splitFirst_append ['m', 's', 'g'] m.data (by decide)
  rw [parseQuery, splitOnChar_not_mem hAll]
  simp only [List.filterMap_cons, List.filterMap_nil, hne, if_false, hsf]
  simp [unquotePlus_not_mem_id hPct hPlus, stringMk_data]
  rfl

theorem parseUrl_echo (m : String) (hAmp : '&' ∉ m.data)
    (hPct : '%' ∉ m.data) (hPlus : '+' ∉ m.data) (hHash : '#' ∉ m.data) :
    parseUrl (echoClientUrl [("msg", m)]) = ("/echo", [("msg", m)]) := by
  have hne : ¬(("msg=" ++ m : String) = "") := by
    intro he
    have hd := congrArg String.data he
    rw [String.data_append] at hd
    exact absurd (List.append_eq_nil.mp hd).1 (by decide)
  have hurl : echoClientUrl [("msg", m)] = "/echo?msg=" ++ m := by
    rw [echoClientUrl]
    rw [show buildQueryString [("msg", m)] = "msg=" ++ m from rfl]
    rw [if_neg hne, ← String.append_assoc]
    rfl
  have hdata : ("/echo?msg=" ++ m).data =
      ['/', 'e', 'c', 'h', 'o'] ++ '?' :: (['m', 's', 'g', '='] ++ m.data) := by
    rw [String.data_append]
    exact rfl
  have hHashAll :
      '#' ∉ ['/', 'e', 'c', 'h', 'o'] ++ '?' :: (['m', 's', 'g', '='] ++ m.data) :=
    notMemAppend (by decide)
      (notMemCons (by decide) (notMemAppend (by decide) hHash))
  rw [hurl, parseUrl, hdata, splitFirst_not_mem hHashAll]
  dsimp only
  rw [splitFirst_append _ _ (by decide)]
  dsimp only
  rw [parseQuery_msg m hAmp hPct hPlus]

/-!  Concrete-value helpers for the generated identifiers. -/

theorem pyInt_one_thousand : pyInt ((1 : ℚ) * 1000) = 1000 := by
  rw [show ((1 : ℚ) * 1000) = (1000 : ℚ) from by norm_num]
  rfl

theorem pyInt_same_ms : pyInt (mkRat 2001 2000 * 1000) = 1000 := by
  rw [show (mkRat 2001 2000 * 1000 : ℚ) = mkRat 2001 2 from by
    rw [Rat.mkRat_eq_div, Rat.mkRat_eq_div]; norm_num]
  rfl

/-!  Claim theorems. -/

/-- C2: the claim asserts that sequential no-header requests always receive
pairwise distinct generated correlation ids, even within the same
millisecond.  The code generates `f"req-{int(t * 1000)}"`, a time-only id
with millisecond granularity: two requests whose clock reads are 1.0 s and
1.0005 s — distinct instants inside the same millisecond — both receive the
id `"req-1000"`.  This evaluates the entry point at that failing input. -/
theorem c2_same_millisecond_collision :
    okXRequestId (handleRequest flaskEnvT1 helloReqBare) = some "req-1000" ∧
    okXRequestId (handleRequest flaskEnvT2 helloReqBare) = some "req-1000" ∧
    (1 : ℚ) ≠ mkRat 2001 2000 := by
  refine ⟨?_, ?_, ?_⟩
  · show some ("req-" ++ toString (pyInt ((1 : ℚ) * 1000))) = some "req-1000"
    rw [pyInt_one_thousand]
    rfl
  · show some ("req-" ++ toString (pyInt (mkRat 2001 2000 * 1000))) =
      some "req-1000"
    rw [pyInt_same_ms]
    rfl
  · rw [Rat.mkRat_eq_div]
    norm_num

/-- C3: the claim asserts that `lambda_handler` never lets an exception
escape (even for a context lacking the expected attributes) and that the 500
body's `request_id` is the literal `"unknown"` when no context is supplied.
The code computes `context.aws_request_id` on line 59, before the `try`
block, so a context object lacking the attribute raises out of the handler;
and with no context the id is `f"lambda-{int(time.time() * 1000)}"`, not
`"unknown"` (the repository's own unit test asserts `"unknown"`). -/
theorem c3_adapter_divergence :
    lambdaHandler helloEvent (some ctxNoAttr) lambdaEnvFault =
      Except.error "AttributeError: aws_request_id" ∧
    exceptStatus (lambdaHandler helloEvent none lambdaEnvFault) = some 500 ∧
    exceptBodyGet "request_id" (lambdaHandler helloEvent none lambdaEnvFault) =
      some (JVal.s "lambda-1000") ∧
    ("lambda-1000" : String) ≠ "unknown" := by
  refine ⟨rfl, rfl, ?_, by decide⟩
  show some (JVal.s ("lambda-" ++ toString (pyInt ((1 : ℚ) * 1000)))) =
    some (JVal.s "lambda-1000")
  rw [pyInt_one_thousand]
  rfl

/-- C5: for every non-empty string m, the echo handler given query
parameter msg = m returns 200 with body message exactly m and echo true;
and the adapter, given the flat GET /echo event with msg "lambda_test",
returns statusCode 200 with body message "lambda_test". -/
theorem c5_echo_returns_message_exactly :
    (∀ (args : List (String × String)) (ts rid m : String),
      argsGet args "msg" = some m → m ≠ "" →
      echo args ts rid =
        (200,
          [("message", JVal.s m), ("echo", JVal.b true),
           ("timestamp", JVal.s ts), ("request_id", JVal.s rid)])) ∧
    exceptStatus (lambdaHandler echoEvent (some ctxOk) lambdaEnvOk) =
      some 200 ∧
    exceptBodyGet "message" (lambdaHandler echoEvent (some ctxOk) lambdaEnvOk) =
      some (JVal.s "lambda_test") ∧
    exceptBodyGet "echo" (lambdaHandler echoEvent (some ctxOk) lambdaEnvOk) =
      some (JVal.b true) := by
  refine ⟨?_, rfl, rfl, rfl⟩
  intro args ts rid m hm hne
  rw [echo, hm]
  simp [hne]

/-- C5 witness: a concrete non-empty Unicode message with inner whitespace
is echoed back exactly. -/
theorem c5_echo_witness :
    echo [("msg", "héllo wörld ")] "ts0" "rid0" =
      (200,
        [("message", JVal.s "héllo wörld "), ("echo", JVal.b true),
         ("timestamp", JVal.s "ts0"), ("request_id", JVal.s "rid0")]) :=
  c5_echo_returns_message_exactly.1 [("msg", "héllo wörld ")] "ts0" "rid0"
    "héllo wörld " rfl (by decide)

/-- C6: a GET /echo request whose msg parameter is absent or the empty
string yields a 400 response through the entry point, whose JSON body is
exactly the error body with the error string, status_code 400, the
timestamp, and the request's correlation id. -/
theorem c6_echo_missing_param_400 (env : ReqEnv) (req : HttpRequest)
    (hm : req.method = "GET") (hp : req.path = "/echo")
    (hf : env.fault = none)
    (ha : argsGet req.args "msg" = none ∨ argsGet req.args "msg" = some "") :
    okStatus (handleRequest env req) = some 400 ∧
    okBody (handleRequest env req) =
      some (echoErrorBody env.utcnowStr (requestIdOf req.headers env.clockRid)) := by
  have hbody :
      echo req.args env.utcnowStr (requestIdOf req.headers env.clockRid) =
        (400,
          echoErrorBody env.utcnowStr (requestIdOf req.headers env.clockRid)) := by
    rcases ha with h | h
    · rw [echo, h]
    · rw [echo, h]
      simp
  have hd : dispatch req env.utcnowStr (requestIdOf req.headers env.clockRid)
      env.healthEnv env.fault =
      Except.ok (400,
        echoErrorBody env.utcnowStr (requestIdOf req.headers env.clockRid)) := by
    rw [hf, dispatch, hp]
    simp [hm, knownPath, hbody]
  constructor
  · show okStatus (handleRequest env req) = some 400
    rw [handleRequest, hd]
    rfl
  · show okBody (handleRequest env req) = _
    rw [handleRequest, hd]
    rfl

/-- C6 witness: the concrete GET /echo request with no query parameters. -/
theorem c6_echo_witness :
    okStatus (handleRequest baseFlaskEnv
      { method := "GET", path := "/echo", args := [], headers := [] }) =
      some 400 :=
  (c6_echo_missing_param_400 baseFlaskEnv
    { method := "GET", path := "/echo", args := [], headers := [] }
    rfl rfl rfl (Or.inl rfl)).1

/-- C9: within one process lifetime in which the start timestamp was set at
process start (as the `__main__` entry point does), two successful health
calls reading clocks t1 ≤ t2 report uptime_seconds t1 - s and t2 - s:
each equals the elapsed time since process start, and the later value is
greater than or equal to the earlier one. -/
theorem c9_uptime_monotone (rid : Option String) (ev : Option String)
    (u : String) (mets : Option (ℚ × ℚ × Nat)) (t1 t2 s : ℚ)
    (h12 : t1 ≤ t2) :
    bodyGet (health rid
        { clock := some t1, appStartTime := some s, environmentVar := ev,
          utcnow := some u, buildFault := false, metrics := mets }).2
        "uptime_seconds" = some (JVal.n (t1 - s)) ∧
    bodyGet (health rid
        { clock := some t2, appStartTime := some s, environmentVar := ev,
          utcnow := some u, buildFault := false, metrics := mets }).2
        "uptime_seconds" = some (JVal.n (t2 - s)) ∧
    t1 - s ≤ t2 - s :=
  ⟨rfl, rfl, by linarith⟩

/-- C9 witness: concrete clock reads 5 s and 7 s against a start time of
2 s give uptimes 3 s and 5 s. -/
theorem c9_uptime_witness :
    bodyGet (health (some "r")
        { clock := some 5, appStartTime := some 2, environmentVar := none,
          utcnow := some "u", buildFault := false, metrics := none }).2
        "uptime_seconds" = some (JVal.n ((5 : ℚ) - 2)) ∧
    bodyGet (health (some "r")
        { clock := some 7, appStartTime := some 2, environmentVar := none,
          utcnow := some "u", buildFault := false, metrics := none }).2
        "uptime_seconds" = some (JVal.n ((7 : ℚ) - 2)) ∧
    (5 : ℚ) - 2 ≤ (7 : ℚ) - 2 :=
  c9_uptime_monotone (some "r") none "u" none 5 7 2 (by norm_num)

/-- Every response body produced by a fault-free dispatch carries the
correlation id in its `request_id` field. -/
theorem dispatch_ok_request_id (req : HttpRequest) (ts rid : String)
    (henv : HealthEnv) :
    ∀ r, dispatch req ts rid henv none = Except.ok r →
      bodyGet r.2 "request_id" = some (JVal.s rid) := by
  intro r hr
  rw [dispatch] at hr
  by_cases hk : knownPath req.path = true
  · rw [if_pos hk] at hr
    by_cases hg : (req.method == "GET") = true
    · rw [if_pos hg] at hr
      by_cases hp1 : (req.path == "/hello") = true
      · rw [if_pos hp1] at hr
        cases hr
        rfl
      · rw [if_neg hp1] at hr
        by_cases hp2 : (req.path == "/echo") = true
        · rw [if_pos hp2] at hr
          cases hr
          rcases hq : argsGet req.args "msg" with _ | m
          · rw [echo, hq]
            rfl
          · rw [echo, hq]
            dsimp only
            by_cases hm0 : m = ""
            · rw [if_pos hm0]
              rfl
            · rw [if_neg hm0]
              rfl
        · rw [if_neg hp2] at hr
          cases hr
          obtain ⟨c, ast, evv, ut, bf, mets⟩ := henv
          rcases c with _ | tc
          · rfl
          · rcases ut with _ | tu
            · rfl
            · rcases bf
              · rfl
              · rfl
    · rw [if_neg hg] at hr
      exact Except.noConfusion hr
  · rw [if_neg hk] at hr
    cases hr
    rfl

/-- C1 counterexample: on the generic unhandled-exception 500 path the
response header `X-Request-ID` carries the correlation id (here the supplied
`"custom-1"`), while the JSON body's `request_id` field is the hard-coded
literal `"unknown"` (src/app.py line 374), so the claimed equality fails. -/
theorem c1_counterexample :
    okStatus (handleRequest faultedFlaskEnv helloReqCustom) = some 500 ∧
    okXRequestId (handleRequest faultedFlaskEnv helloReqCustom) =
      some "custom-1" ∧
    okBodyGet "request_id" (handleRequest faultedFlaskEnv helloReqCustom) =
      some (JVal.s "unknown") ∧
    ("custom-1" : String) ≠ "unknown" :=
  ⟨rfl, rfl, rfl, by decide⟩

/-- C1 (amended): for every request in which no unhandled exception escapes
the view function and the id-generation clock read succeeds, the response's
`X-Request-ID` header equals the correlation id (the incoming `X-Request-ID`
header value when supplied, otherwise the generated id), and every JSON
response body's `request_id` field equals that same header value — this
covers the success, 400 and 404 paths, but not the generic
unhandled-exception 500 path, whose body says `"unknown"`. -/
theorem c1_header_body_request_id_agree (env : ReqEnv) (req : HttpRequest)
    (t : ℚ) (hf : env.fault = none) (hc : env.clockRid = some t) :
    ∀ r, handleRequest env req = Except.ok r →
      r.xRequestId = (headerGet req.headers "X-Request-ID").getD (genRequestId t) ∧
      bodyGet r.body "request_id" = some (JVal.s r.xRequestId) := by
  intro r hr
  rw [handleRequest, hf] at hr
  rcases hd : dispatch req env.utcnowStr (requestIdOf req.headers env.clockRid)
      env.healthEnv none with e | p
  · rw [hd] at hr
    exact Except.noConfusion hr
  · rw [hd] at hr
    cases hr
    constructor
    · show requestIdOf req.headers env.clockRid = _
      rw [hc]
      rfl
    · exact dispatch_ok_request_id req env.utcnowStr _ env.healthEnv p hd

/-- C1 witness: a GET /hello request with supplied header
`X-Request-ID: custom-1` through the fault-free pipeline. -/
theorem c1_witness :
    okBodyGet "request_id" (handleRequest baseFlaskEnv helloReqCustom) =
      some (JVal.s "custom-1") := by
  have h := c1_header_body_request_id_agree baseFlaskEnv helloReqCustom 10
    rfl rfl
  rcases hr : handleRequest baseFlaskEnv helloReqCustom with e | r
  · exact Except.noConfusion hr
  · have h2 := h r hr
    show bodyGet r.body "request_id" = some (JVal.s "custom-1")
    rw [h2.2, h2.1]
    rfl

/-- C4 counterexample: neither surface returns 405.  On the HTTP entry
point a POST to /hello does not produce a 405 response: the
`MethodNotAllowed` raised by routing reaches the generic
`errorhandler(Exception)` (no 405-specific handler is registered), whose
`HTTPException` branch re-raises it, so the exception escapes the
application instead of being rendered.  The adapter given a POST /hello
event ignores the method, replays the request as a GET, and returns that
GET's 200. -/
theorem c4_counterexample :
    handleRequest baseFlaskEnv postHelloReq =
      Except.error "405 Method Not Allowed" ∧
    exceptStatus (lambdaHandler postHelloEvent (some ctxOk) lambdaEnvOk) =
      some 200 ∧
    (200 : Nat) ≠ 405 :=
  ⟨rfl, rfl, by decide⟩

/-- C4 (amended): the system returns 405 on neither surface.  On the HTTP
entry point, a non-GET method on a known route makes the routing layer
raise `MethodNotAllowed`, which Flask's by-MRO handler lookup sends to the
registered generic `errorhandler(Exception)`; its `HTTPException` branch
re-raises (src/app.py lines 363-365), so no 405 response is rendered — the
exception escapes the WSGI application (surfacing as the server's generic
500 in production).  The invocation-event adapter ignores the method
entirely and replays every event as a GET to its path, so a POST /hello
event returns the GET response's status 200. -/
theorem c4_method_not_allowed :
    (∀ (env : ReqEnv) (req : HttpRequest), knownPath req.path = true →
      req.method ≠ "GET" →
      handleRequest env req = Except.error "405 Method Not Allowed") ∧
    exceptStatus (lambdaHandler postHelloEvent (some ctxOk) lambdaEnvOk) =
      some 200 := by
  refine ⟨?_, rfl⟩
  intro env req hk hm
  have hne : ¬((req.method == "GET") = true) := by simp [hm]
  have hd : dispatch req env.utcnowStr (requestIdOf req.headers env.clockRid)
      env.healthEnv env.fault = Except.error "405 Method Not Allowed" := by
    rw [dispatch.eq_def, if_pos hk, if_neg hne]
  rw [handleRequest, hd]

/-- C4 witness: a POST to /hello through the HTTP entry point yields the
escaping `MethodNotAllowed`, not a rendered response. -/
theorem c4_witness :
    handleRequest baseFlaskEnv postHelloReq =
      Except.error "405 Method Not Allowed" :=
  c4_method_not_allowed.1 baseFlaskEnv postHelloReq (by decide) (by decide)

/-- C7: the health handler has exactly two outcomes — 200 or 503 — and
never propagates a fault: under normal operation (working clock and
timestamp, no internal fault) it returns 200 with status "healthy" and all
three checks "ok"; on any internal fault while building the payload
(including a failing clock read) it returns 503 with status "unhealthy",
error "Health check failed", a timestamp field and a request_id field. -/
theorem c7_health_two_outcomes (gRid : Option String) (e : HealthEnv) :
    ((health gRid e).1 = 200 ∨ (health gRid e).1 = 503) ∧
    (e.clock = none ∨ e.utcnow = none ∨ e.buildFault = true →
      (health gRid e).1 = 503 ∧
      bodyGet (health gRid e).2 "status" = some (JVal.s "unhealthy") ∧
      bodyGet (health gRid e).2 "error" =
        some (JVal.s "Health check failed") ∧
      (bodyGet (health gRid e).2 "timestamp").isSome = true ∧
      (bodyGet (health gRid e).2 "request_id").isSome = true) ∧
    (e.clock ≠ none → e.utcnow ≠ none → e.buildFault = false →
      (health gRid e).1 = 200 ∧
      bodyGet (health gRid e).2 "status" = some (JVal.s "healthy") ∧
      bodyGet (health gRid e).2 "checks" =
        some (JVal.obj
          [("application", JVal.s "ok"), ("memory", JVal.s "ok"),
           ("dependencies", JVal.s "ok")])) := by
  obtain ⟨c, ast, evv, ut, bf, mets⟩ := e
  rcases c with _ | tc
  · exact ⟨Or.inr rfl, fun _ => ⟨rfl, rfl, rfl, rfl, rfl⟩,
      fun h _ _ => absurd rfl h⟩
  · rcases ut with _ | tu
    · exact ⟨Or.inr rfl, fun _ => ⟨rfl, rfl, rfl, rfl, rfl⟩,
      fun _ h _ => absurd rfl h⟩
    · rcases bf
      · exact ⟨Or.inl rfl,
          fun h => by rcases h with h | h | h <;> simp at h,
          fun _ _ _ => ⟨rfl, rfl, rfl⟩⟩
      · exact ⟨Or.inr rfl, fun _ => ⟨rfl, rfl, rfl, rfl, rfl⟩,
          fun _ _ h => by simp at h⟩

/-- C7 witness: the healthy ambient state produces the 200 healthy payload
with all three checks "ok". -/
theorem c7_witness :
    (health (some "r") baseHealthEnv).1 = 200 ∧
    bodyGet (health (some "r") baseHealthEnv).2 "status" =
      some (JVal.s "healthy") ∧
    bodyGet (health (some "r") baseHealthEnv).2 "checks" =
      some (JVal.obj
        [("application", JVal.s "ok"), ("memory", JVal.s "ok"),
         ("dependencies", JVal.s "ok")]) :=
  (c7_health_two_outcomes (some "r") baseHealthEnv).2.2 (by decide)
    (by decide) rfl

/-- C8 counterexample: when the clock read at begin fails but the read at
the end succeeds (here returning 1 s), `g.start_time` falls back to 0 and
the X-Response-Time value is `round((1 - 0) * 1000, 2) = 1000`, not the 0
the claim requires for a clock failure at begin. -/
theorem c8_counterexample :
    beginFailEnv.clockStart = none ∧
    okXResponseTime (handleRequest beginFailEnv helloReqBare) = some 1000 ∧
    (1000 : ℚ) ≠ 0 := by
  refine ⟨rfl, ?_, by norm_num⟩
  show some (pyRound2 (((1 : ℚ) - startTimeOf none) * 1000)) = some 1000
  rw [show (((1 : ℚ) - startTimeOf none) * 1000) = ((1000 : ℤ) : ℚ) from by
    norm_num [startTimeOf]]
  rw [pyRound2_intCast]
  norm_num

/-- C8 (amended): the X-Response-Time value never raises and is computed
totally: when both clock reads succeed it is `round((end - begin) * 1000,
2)`, non-negative whenever end is at least begin; when the read at the end
fails it is 0; when only the read at begin fails, begin is taken as 0, so
the value is `round(end * 1000, 2)` rather than 0. -/
theorem c8_response_time (env : ReqEnv) (req : HttpRequest) :
    ∀ r, handleRequest env req = Except.ok r →
      (∀ t1 t2 : ℚ, env.clockStart = some t1 → env.clockEnd = some t2 →
        t1 ≤ t2 →
        r.xResponseTime = pyRound2 ((t2 - t1) * 1000) ∧
        0 ≤ r.xResponseTime) ∧
      (env.clockEnd = none → r.xResponseTime = 0) ∧
      (∀ t2 : ℚ, env.clockStart = none → env.clockEnd = some t2 →
        r.xResponseTime = pyRound2 (t2 * 1000)) := by
  intro r hr
  have hx : r.xResponseTime = durationMs env.clockStart env.clockEnd := by
    rw [handleRequest] at hr
    rcases hd : dispatch req env.utcnowStr
        (requestIdOf req.headers env.clockRid) env.healthEnv env.fault
      with e | p
    · rw [hd] at hr
      exact Except.noConfusion hr
    · rw [hd] at hr
      cases hr
      rfl
  refine ⟨?_, ?_, ?_⟩
  · intro t1 t2 h1 h2 hle
    rw [hx, h1, h2]
    refine ⟨rfl, ?_⟩
    show (0 : ℚ) ≤ pyRound2 ((t2 - startTimeOf (some t1)) * 1000)
    exact pyRound2_nonneg
      (mul_nonneg (sub_nonneg.mpr hle) (by norm_num))
  · intro h2
    rw [hx, h2]
    rfl
  · intro t2 h1 h2
    rw [hx, h1, h2]
    show pyRound2 ((t2 - startTimeOf none) * 1000) = pyRound2 (t2 * 1000)
    simp [startTimeOf]

/-- C8 witness: clock reads 10 s and 11 s give the rounded elapsed-time
value for one second, which is non-negative. -/
theorem c8_witness :
    okXResponseTime (handleRequest baseFlaskEnv helloReqBare) =
      some (pyRound2 (((11 : ℚ) - 10) * 1000)) ∧
    0 ≤ pyRound2 (((11 : ℚ) - 10) * 1000) := by
  rcases hr : handleRequest baseFlaskEnv helloReqBare with e | r
  · exact Except.noConfusion hr
  · have h := (c8_response_time baseFlaskEnv helloReqBare r hr).1 10 11
      rfl rfl (by norm_num)
    constructor
    · show some r.xResponseTime = _
      rw [h.1]
    · exact h.1 ▸ h.2

/-- C10: the adapter rebuilds the /echo query string by plain '&'-joined,
'='-separated concatenation without URL-encoding.  For every msg value free
of the reserved characters '&', '=', '%', '+', '#', the test client's URL
parsing inverts the concatenation, so the value reaches the echo handler
unchanged and (when non-empty) is echoed back exactly; but for the value
"a&b" the rebuilt query string "msg=a&b" re-parses as two fields, and the
message echoed back through the adapter is "a", not "a&b". -/
theorem c10_query_rebuild_no_encoding :
    (∀ m : String, '&' ∉ m.data → '=' ∉ m.data → '%' ∉ m.data →
      '+' ∉ m.data → '#' ∉ m.data →
      parseUrl (echoClientUrl [("msg", m)]) = ("/echo", [("msg", m)])) ∧
    (∀ m : String, m ≠ "" → '&' ∉ m.data → '=' ∉ m.data → '%' ∉ m.data →
      '+' ∉ m.data → '#' ∉ m.data →
      exceptBodyGet "message"
        (lambdaHandler (echoEventFor m) (some ctxOk) lambdaEnvOk) =
        some (JVal.s m)) ∧
    exceptBodyGet "message"
      (lambdaHandler echoAmpEvent (some ctxOk) lambdaEnvOk) =
      some (JVal.s "a") ∧
    ("a" : String) ≠ "a&b" := by
  refine ⟨?_, ?_, rfl, by decide⟩
  · intro m h1 h2 h3 h4 h5
    exact parseUrl_echo m h1 h3 h4 h5
  · intro m hne h1 h2 h3 h4 h5
    have hcg : clientGet lambdaEnvOk.flask (echoClientUrl [("msg", m)])
        [("X-Request-ID", "test-request-id-123")] =
        handleRequest baseFlaskEnv
          { method := "GET", path := "/echo", args := [("msg", m)],
            headers := [("X-Request-ID", "test-request-id-123")] } := by
      rw [clientGet, parseUrl_echo m h1 h3 h4 h5]
      rfl
    show exceptBodyGet "message"
      (Except.ok (flaskToApi "test-request-id-123"
        (pyRound2 ((lambdaEnvOk.endMs - lambdaEnvOk.nowMs) * 1000))
        lambdaEnvOk.utcnowStr
        (clientGet lambdaEnvOk.flask (echoClientUrl [("msg", m)])
          [("X-Request-ID", "test-request-id-123")]))) = some (JVal.s m)
    rw [hcg]
    show bodyGet
      ((if m = "" then
          (400, echoErrorBody "2024-01-01T00:00:00Z" "test-request-id-123")
        else
          (200,
            [("message", JVal.s m), ("echo", JVal.b true),
             ("timestamp", JVal.s "2024-01-01T00:00:00Z"),
             ("request_id", JVal.s "test-request-id-123")]) :
        Nat × List (String × JVal)).2) "message" = some (JVal.s m)
    rw [if_neg hne]
    rfl

/-- C10 witness: the value "hello world" (no reserved characters) survives
the rebuild-and-reparse round trip and is echoed back exactly. -/
theorem c10_witness :
    parseUrl (echoClientUrl [("msg", "hello world")]) =
      ("/echo", [("msg", "hello world")]) ∧
    exceptBodyGet "message"
      (lambdaHandler (echoEventFor "hello world") (some ctxOk) lambdaEnvOk) =
      some (JVal.s "hello world") :=
  ⟨c10_query_rebuild_no_encoding.1 "hello world" (by decide) (by decide)
    (by decide) (by decide) (by decide),
   c10_query_rebuild_no_encoding.2.1 "hello world" (by decide) (by decide)
    (by decide) (by decide) (by decide) (by decide)⟩

end AppModel
